import Mathlib

/-!
Verification development for the BoardGameAssistant backend core:
shallow embedding of the feature-access resolver, usage ledger,
session manager, knowledge locator and Gemini query orchestrator,
with theorems settling the specification claims.
-/

namespace BGA

/-- Python truthiness of an optional string: None and the empty string are falsy. -/
def optTruthy : Option String → Bool
  | none => false
  | some s => !(s == "")

/-! ## Feature flags (src/backend/app/services/feature_flags.py) -/

/-- A row of the feature_flags table. Metadata is an opaque key-value map,
modelled as an association list. -/
structure FeatureFlag where
  scope_type : String
  scope_id : Option String
  feature_key : String
  role : Option String
  environment : String
  enabled : Bool
  metadata : Option (List (String × Int))
deriving Repr, DecidableEq

/-- The derived access decision returned by the resolver. -/
structure FeatureAccess where
  has_access : Bool
  feature_key : String
  reason : String
  metadata : Option (List (String × Int))
deriving Repr, DecidableEq

/-- Row predicate of the get_feature_flags query: mandatory equality filters on
feature_key and environment, optional filters on scope_type, scope_id and role.
Each optional filter is applied only when its argument is truthy, mirroring the
`if scope_type:` / `if scope_id:` / `if role:` guards in the source. -/
def flagRowMatches (env feature_key : String) (scope_type scope_id role : Option String)
    (f : FeatureFlag) : Bool :=
  f.feature_key == feature_key && f.environment == env
    && (if optTruthy scope_type then f.scope_type == scope_type.getD "" else true)
    && (if optTruthy scope_id then f.scope_id == scope_id else true)
    && (if optTruthy role then f.role == role else true)

/-- get_feature_flags: filtered read of the feature_flags table, in store order. -/
def get_feature_flags (store : List FeatureFlag) (env : String) (feature_key : String)
    (scope_type : Option String := none) (scope_id : Option String := none)
    (role : Option String := none) : List FeatureFlag :=
  store.filter (flagRowMatches env feature_key scope_type scope_id role)

/-- The reason string attached to a flag-decided outcome. -/
def flagReason (decided : String) (check_scope_type : String) (check_role : Option String) :
    String :=
  decided ++ " by " ++ check_scope_type ++ " flag"
    ++ (if optTruthy check_role then " for role " ++ check_role.getD "" else "")

/-- Evaluate candidate lookups in order of specificity: the first candidate whose
query returns at least one flag decides the outcome from its first flag. -/
def evalCandidates (store : List FeatureFlag) (env : String) (feature_key : String) :
    List (String × Option String × Option String) → Option FeatureAccess
  | [] => none
  | (check_scope_type, check_scope_id, check_role) :: rest =>
    match get_feature_flags store env feature_key (some check_scope_type) check_scope_id
        check_role with
    | [] => evalCandidates store env feature_key rest
    | flag :: _ =>
      if flag.enabled then
        some ⟨true, feature_key, flagReason "Enabled" check_scope_type check_role,
          flag.metadata⟩
      else
        some ⟨false, feature_key, flagReason "Disabled" check_scope_type check_role,
          flag.metadata⟩

/-- The ordered candidate list built by check_feature_access: user-scoped lookups,
then game/section-scoped (when applicable), then global, each first with the
role filter and then role-agnostic. -/
def candidateList (user_id user_role scope_type : String) (scope_id : Option String) :
    List (String × Option String × Option String) :=
  [("user", some user_id, some user_role), ("user", some user_id, none)]
    ++ (if (scope_type == "game" || scope_type == "section") && optTruthy scope_id then
          [(scope_type, scope_id, some user_role), (scope_type, scope_id, none)]
        else [])
    ++ [("global", none, some user_role), ("global", none, none)]

/-- check_feature_access: admin/developer bypasses, then precedence evaluation over
the candidate list, with a default deny when no candidate yields a flag. -/
def check_feature_access (store : List FeatureFlag) (env : String) (is_development : Bool)
    (user_id user_role feature_key : String) (scope_type : String := "global")
    (scope_id : Option String := none) : FeatureAccess :=
  if (user_role == "admin" || user_role == "developer") && is_development then
    ⟨true, feature_key, user_role ++ " role has full access in dev environment", none⟩
  else if user_role == "admin" then
    ⟨true, feature_key, "admin role has full access", none⟩
  else
    match evalCandidates store env feature_key
        (candidateList user_id user_role scope_type scope_id) with
    | some access => access
    | none =>
      ⟨false, feature_key,
        "No feature flag found for " ++ feature_key ++ " in " ++ scope_type ++ " scope",
        none⟩

/-! ## Usage ledger (src/backend/app/services/usage_tracking.py) -/

/-- A point in UTC time, as a calendar day index together with the second of the day. -/
structure UtcTime where
  day : Nat
  secOfDay : Nat
deriving Repr, DecidableEq

/-- utcnow().replace(hour=0, minute=0, second=0, microsecond=0): start of the current day. -/
def startOfDay (t : UtcTime) : UtcTime := ⟨t.day, 0⟩

/-- Start of the next UTC calendar day (today at midnight plus one day). -/
def nextDayStart (t : UtcTime) : UtcTime := ⟨t.day + 1, 0⟩

/-- Chronological comparison of UTC times. -/
def utcLe (a b : UtcTime) : Bool :=
  a.day < b.day || (a.day == b.day && a.secOfDay ≤ b.secOfDay)

/-- A row of the usage_events table. -/
structure UsageEvent where
  user_id : String
  game_id : Option String
  feature_key : Option String
  event_type : String
  environment : String
  timestamp : UtcTime
deriving Repr, DecidableEq

/-- log_usage_event: the record-store client is acquired before the guarded block,
so a client-acquisition failure propagates; once the client is held, any failure
of the insert itself is printed and swallowed and the call returns normally
(leaving the store unchanged). On success the event is appended. -/
def log_usage_event (client : Except String Unit) (insertFails : Bool)
    (store : List UsageEvent) (e : UsageEvent) : Except String (List UsageEvent) :=
  match client with
  | .error msg => .error msg
  | .ok _ => if insertFails then .ok store else .ok (store ++ [e])

/-- Row predicate of the get_daily_usage_count query: user, event type, environment,
timestamp at or after the start of today, and an optional game filter applied only
when game_id is truthy. -/
def dailyCountRowMatches (user_id event_type env : String) (todayStart : UtcTime)
    (game_id : Option String) (e : UsageEvent) : Bool :=
  e.user_id == user_id && e.event_type == event_type && e.environment == env
    && utcLe todayStart e.timestamp
    && (if optTruthy game_id then e.game_id == game_id else true)

/-- get_daily_usage_count: count of matching events today; if the store query
raises, the error is printed and 0 is returned. -/
def get_daily_usage_count (storeRead : Except String (List UsageEvent))
    (user_id event_type env : String) (now : UtcTime) (game_id : Option String) : Nat :=
  match storeRead with
  | .error _ => 0
  | .ok events =>
    (events.filter (dailyCountRowMatches user_id event_type env (startOfDay now) game_id)).length

/-- The record returned by check_daily_limit. -/
structure DailyLimitResult where
  has_quota : Bool
  daily_used : Nat
  daily_limit : Int
  remaining : Int
  reset_at : UtcTime
deriving Repr, DecidableEq

/-- check_daily_limit: reads the daily count, computes remaining = max(0, limit - used),
has_quota = remaining > 0, and reset_at = start of the next UTC day. -/
def check_daily_limit (storeRead : Except String (List UsageEvent))
    (user_id event_type : String) (daily_limit : Int) (game_id : Option String)
    (env : String) (now : UtcTime) : DailyLimitResult :=
  let daily_used := get_daily_usage_count storeRead user_id event_type env now game_id
  let remaining := max 0 (daily_limit - daily_used)
  { has_quota := decide (0 < remaining)
    daily_used := daily_used
    daily_limit := daily_limit
    remaining := remaining
    reset_at := nextDayStart now }

/-! ## Session manager (src/backend/app/services/chat_sessions.py) -/

/-- A row of the chat_sessions table. -/
structure ChatSession where
  id : String
  user_id : String
  game_id : String
  language : String
  model_provider : String
  model_name : String
  status : String
  total_messages : Int
  total_token_estimate : Int
  started_at : UtcTime
  last_activity_at : UtcTime
deriving Repr, DecidableEq

/-- Row predicate of the resumption lookup: matching id, owner, and active status. -/
def sessionPred (session_id user_id : String) (s : ChatSession) : Bool :=
  s.id == session_id && s.user_id == user_id && s.status == "active"

/-- The lookup issued on session resumption: first row matching id, owner and
active status (maybe_single over the filtered table). -/
def sessionLookup (sessions : List ChatSession) (session_id user_id : String) :
    Option ChatSession :=
  (sessions.filter (sessionPred session_id user_id)).head?

/-- The per-row effect of the resumption update: stamp last_activity_at on a row
whose id matches, leave other rows unchanged. -/
def stampOne (session_id : String) (now : UtcTime) (s : ChatSession) : ChatSession :=
  if s.id == session_id then { s with last_activity_at := now } else s

/-- The update issued on a resumption hit: stamp last_activity_at on every row
whose id matches (the update filters on id only). -/
def stampActivity (sessions : List ChatSession) (session_id : String) (now : UtcTime) :
    List ChatSession :=
  sessions.map (stampOne session_id now)

/-- The fresh session record built on the create path: active status, zeroed
counters, started_at = last_activity_at = now. The row id is assigned by the
store on insert and is supplied here as new_id. -/
def newSessionRecord (new_id user_id game_id language model_provider model_name : String)
    (now : UtcTime) : ChatSession :=
  ⟨new_id, user_id, game_id, language, model_provider, model_name, "active", 0, 0, now, now⟩

/-- get_or_create_session: when a truthy session_id is given and a row with that id,
this owner and active status exists, return it (as fetched, before the stamp) and
stamp last_activity_at; otherwise insert a fresh session. Returns the session
record together with the updated table. -/
def get_or_create_session (sessions : List ChatSession)
    (user_id game_id language model_provider model_name : String)
    (session_id : Option String) (now : UtcTime) (new_id : String) :
    ChatSession × List ChatSession :=
  let create :=
    let s := newSessionRecord new_id user_id game_id language model_provider model_name now
    (s, sessions ++ [s])
  if optTruthy session_id then
    match sessionLookup sessions (session_id.getD "") user_id with
    | some session => (session, stampActivity sessions (session_id.getD "") now)
    | none => create
  else create

/-- A row of the chat_messages table; created_at is the ordering key. -/
structure ChatMessage where
  id : String
  session_id : String
  sender : String
  content : String
  created_at : Nat
deriving Repr, DecidableEq

/-- Insert a message into a list kept ascending by created_at. -/
def insertByCreated (m : ChatMessage) : List ChatMessage → List ChatMessage
  | [] => [m]
  | x :: xs =>
    if m.created_at ≤ x.created_at then m :: x :: xs else x :: insertByCreated m xs

/-- Sort messages ascending by created_at (the order("created_at", desc=False) clause). -/
def sortByCreated : List ChatMessage → List ChatMessage
  | [] => []
  | x :: xs => insertByCreated x (sortByCreated xs)

/-- get_session_history: messages of the session ordered by created_at ascending,
truncated to the first `limit` rows. -/
def get_session_history (messages : List ChatMessage) (session_id : String)
    (limit : Nat) : List ChatMessage :=
  (sortByCreated (messages.filter (fun m => m.session_id == session_id))).take limit

/-! ## Knowledge locator (src/backend/app/api/routes/genai.py) -/

/-- A row of the game_documents table, restricted to the fields the locator reads. -/
structure GameDocument where
  game_id : String
  language : String
  status : String
  vector_store_id : Option String
deriving Repr, DecidableEq

/-- Row predicate of the locator query: game, language, ready status, non-null store id. -/
def readyDocMatches (game_id language : String) (d : GameDocument) : Bool :=
  d.game_id == game_id && d.language == language && d.status == "ready"
    && d.vector_store_id.isSome

/-- The limit-1 query of the locator: the vector_store_id of the first matching row. -/
def readyStoreQuery (docs : List GameDocument) (game_id language : String) :
    Option String :=
  match (docs.filter (readyDocMatches game_id language)).head? with
  | some d => d.vector_store_id
  | none => none

/-- _get_vector_store_id: first matching ready document for (game, language); if none
and the language is not "en", retry with "en"; otherwise None. -/
def getVectorStoreId (docs : List GameDocument) (game_id language : String) :
    Option String :=
  match readyStoreQuery docs game_id language with
  | some v => some v
  | none =>
    if language != "en" then readyStoreQuery docs game_id "en" else none

/-! ## Query orchestrator (src/backend/app/services/gemini_provider.py, query_gemini)

The two grounded stages, and the synthesis call, are outbound model calls; each is
embedded as an explicit outcome parameter (success payload or the exception text
recorded by the corresponding except block). The orchestration below the calls is
translated directly. -/

/-- One citation entry, as assembled by the stage extraction loops. -/
structure Citation where
  document_title : Option String
  excerpt : String
  source : String
deriving Repr, DecidableEq

/-- The usage_metadata attached to a model response; each counter may be absent. -/
structure UsageMetadata where
  total_token_count : Option Nat
  prompt_token_count : Option Nat
  candidates_token_count : Option Nat
deriving Repr, DecidableEq

/-- What a successful grounded stage yields: accumulated answer text, extracted
citations, and the response usage metadata (None when the response carried none). -/
structure StageResult where
  text : String
  citations : List Citation
  usage : Option UsageMetadata
deriving Repr, DecidableEq

/-- What a successful synthesis call yields: accumulated answer text and usage. -/
structure SynthResult where
  text : String
  usage : Option UsageMetadata
deriving Repr, DecidableEq

/-- The model_info dictionary of the result; errors is the per-stage error map,
empty when the errors key is absent. -/
structure ModelInfo where
  provider : String
  model_name : String
  total_tokens : Option Nat
  prompt_tokens : Option Nat
  completion_tokens : Option Nat
  errors : List (String × String)
deriving Repr, DecidableEq

/-- The dictionary returned by query_gemini. -/
structure QueryResult where
  answer : String
  citations : List Citation
  model_info : ModelInfo
deriving Repr, DecidableEq

/-- The fixed sentinel answer required when no stage can support an answer. -/
def sentinelAnswer : String := "I dont have information about your request"

/-- Python str.strip(): remove leading and trailing whitespace characters. -/
def pyStrip (s : String) : String :=
  ⟨((s.data.dropWhile Char.isWhitespace).reverse.dropWhile Char.isWhitespace).reverse⟩

/-- answer_text.strip() or sentinel: the stripped text when non-empty, else the sentinel. -/
def stripOrSentinel (s : String) : String :=
  if pyStrip s == "" then sentinelAnswer else pyStrip s

/-- Token contribution of one optional usage_metadata object under
getattr(u, field, 0) or 0, summed only when the object is present. -/
def usageContrib (u : Option UsageMetadata) (field : UsageMetadata → Option Nat) : Nat :=
  match u with
  | none => 0
  | some m => (field m).getD 0

/-- The model_info of the single-surviving-stage return: the survivor's token
counters passed through, and the failing stage's error string under its key. -/
def survivorModelInfo (model_name : String) (survivor : StageResult)
    (failKey failErr : String) : ModelInfo :=
  { provider := "gemini"
    model_name := model_name
    total_tokens := survivor.usage.bind (fun u => u.total_token_count)
    prompt_tokens := survivor.usage.bind (fun u => u.prompt_token_count)
    completion_tokens := survivor.usage.bind (fun u => u.candidates_token_count)
    errors := [(failKey, failErr)] }

/-- final_answer after the synthesis block when both stages succeeded: the synthesis
text on success; on synthesis failure, the file-search text when non-empty, else the
google-search text when non-empty, else the sentinel. -/
def finalAnswerText (fs gs : StageResult) (synth : Except String SynthResult) : String :=
  match synth with
  | .ok r => r.text
  | .error _ =>
    if fs.text == "" then (if gs.text == "" then sentinelAnswer else gs.text) else fs.text

/-- usage_metadata_synth after the synthesis block: present only on synthesis success. -/
def synthUsage (synth : Except String SynthResult) : Option UsageMetadata :=
  match synth with
  | .ok r => r.usage
  | .error _ => none

/-- The error map built when both stages succeeded: only a synthesis entry, present
exactly when synthesis failed. -/
def synthErrors (synth : Except String SynthResult) : List (String × String) :=
  match synth with
  | .ok _ => []
  | .error e => [("synthesis", "Synthesis failed: " ++ e)]

/-- The both-stages-succeeded return: synthesized (or fallback) answer, concatenated
citations, token counters summed over the calls that executed (each total emitted
only when positive). -/
def bothOkResult (model_name : String) (fs gs : StageResult)
    (synth : Except String SynthResult) : QueryResult :=
  let total := usageContrib fs.usage (fun u => u.total_token_count)
    + usageContrib gs.usage (fun u => u.total_token_count)
    + usageContrib (synthUsage synth) (fun u => u.total_token_count)
  let prompt := usageContrib fs.usage (fun u => u.prompt_token_count)
    + usageContrib gs.usage (fun u => u.prompt_token_count)
    + usageContrib (synthUsage synth) (fun u => u.prompt_token_count)
  let completion := usageContrib fs.usage (fun u => u.candidates_token_count)
    + usageContrib gs.usage (fun u => u.candidates_token_count)
    + usageContrib (synthUsage synth) (fun u => u.candidates_token_count)
  { answer := stripOrSentinel (finalAnswerText fs gs synth)
    citations := fs.citations ++ gs.citations
    model_info :=
    { provider := "gemini"
      model_name := model_name
      total_tokens := if 0 < total then some total else none
      prompt_tokens := if 0 < prompt then some prompt else none
      completion_tokens := if 0 < completion then some completion else none
      errors := synthErrors synth } }

/-- query_gemini, from the point where both grounded stages have reached a terminal
state: raise when both stages failed; return the survivor as-is when exactly one
failed; otherwise synthesize (with fallback on synthesis failure). -/
def query_gemini (model_name : String) (fsOutcome gsOutcome : Except String StageResult)
    (synth : Except String SynthResult) : Except String QueryResult :=
  match fsOutcome, gsOutcome with
  | .error fe, .error ge =>
    .error ("Both queries failed. File search: " ++ fe ++ ". Google search: " ++ ge)
  | .error fe, .ok gs =>
    .ok { answer := stripOrSentinel gs.text
          citations := gs.citations
          model_info := survivorModelInfo model_name gs "file_search" fe }
  | .ok fs, .error ge =>
    .ok { answer := stripOrSentinel fs.text
          citations := fs.citations
          model_info := survivorModelInfo model_name fs "google_search" ge }
  | .ok fs, .ok gs => .ok (bothOkResult model_name fs gs synth)

/-! ## Fixtures used by witnesses and counterexamples -/

/-- A concrete usage event for witnesses: user u1 asked a chat question on day 100. -/
def sampleEvent : UsageEvent :=
  ⟨"u1", some "g1", some "chat", "chat_question", "production", ⟨100, 10⟩⟩

/-- A predicate for normal (non-raising) completion of an embedded fallible call. -/
def returnsNormally {α : Type} : Except String α → Bool
  | .ok _ => true
  | .error _ => false

/-- Concrete message table: one session with three messages in chronological order. -/
def c4Messages : List ChatMessage :=
  [⟨"m1", "s", "user", "q1", 1⟩, ⟨"m2", "s", "assistant", "a1", 2⟩,
   ⟨"m3", "s", "user", "q2", 3⟩]

/-- Concrete document table: game g1 has a ready English document only. -/
def c7Docs : List GameDocument := [⟨"g1", "en", "ready", some "store-en"⟩]

/-- A concrete surviving google-search stage for the orchestrator witnesses. -/
def gsParis : StageResult :=
  ⟨"Paris", [⟨some "t", "https://example.org", "google_search"⟩],
    some ⟨some 10, some 4, some 6⟩⟩

/-- Concrete flag table: a disabled user-scoped flag for user u1 and an enabled
global flag, both role-agnostic, for feature chat in production. -/
def c3Store : List FeatureFlag :=
  [⟨"user", some "u1", "chat", none, "production", false, none⟩,
   ⟨"global", none, "chat", none, "production", true, none⟩]

/-- A user-scoped flag for user u1 created for role premium, disabled. -/
def c10Flag : FeatureFlag :=
  ⟨"user", some "u1", "chat", some "premium", "production", false, none⟩

/-- Concrete flag table: the only flag for feature chat is the disabled
premium-role user-scoped flag. -/
def c10Store : List FeatureFlag := [c10Flag]

/-- A concrete active session owned by user u1. -/
def c8Session : ChatSession :=
  ⟨"s1", "u1", "g1", "es", "gemini", "model-x", "active", 4, 120, ⟨100, 0⟩, ⟨100, 50⟩⟩

/-- Concrete session table holding the active session and an unrelated session. -/
def c8Sessions : List ChatSession :=
  [c8Session, ⟨"s2", "u2", "g1", "en", "gemini", "model-x", "active", 2, 30, ⟨99, 0⟩, ⟨99, 10⟩⟩]

end BGA

namespace BGA

/-! ## Claim theorems -/

/-- Claim C5, counterexample: log_usage_event propagates a failure to obtain the
record-store client (acquired before the guarded block), so it is not true that it
never raises for every behaviour of the record store. -/
theorem log_usage_event_client_failure_raises :
    returnsNormally
      (log_usage_event (Except.error "store client unavailable") false [] sampleEvent)
      = false := rfl

/-- Claim C5 (amended): once the record-store client has been obtained, log_usage_event
returns normally for every input and every behaviour of the insert — an insert failure
is logged and swallowed. -/
theorem log_usage_event_never_raises_after_client (insertFails : Bool)
    (store : List UsageEvent) (e : UsageEvent) :
    returnsNormally (log_usage_event (Except.ok ()) insertFails store e) = true := by
  cases insertFails <;> rfl

/-- Unfolding lemma: the daily_used field of a limit check. -/
theorem cdl_daily_used (sr : Except String (List UsageEvent)) (uid et : String)
    (dl : Int) (gid : Option String) (env : String) (now : UtcTime) :
    (check_daily_limit sr uid et dl gid env now).daily_used
      = get_daily_usage_count sr uid et env now gid := rfl

/-- Unfolding lemma: the remaining field of a limit check. -/
theorem cdl_remaining (sr : Except String (List UsageEvent)) (uid et : String)
    (dl : Int) (gid : Option String) (env : String) (now : UtcTime) :
    (check_daily_limit sr uid et dl gid env now).remaining
      = max 0 (dl - get_daily_usage_count sr uid et env now gid) := rfl

/-- Unfolding lemma: the has_quota field of a limit check. -/
theorem cdl_has_quota (sr : Except String (List UsageEvent)) (uid et : String)
    (dl : Int) (gid : Option String) (env : String) (now : UtcTime) :
    (check_daily_limit sr uid et dl gid env now).has_quota
      = decide (0 < max 0 (dl - get_daily_usage_count sr uid et env now gid)) := rfl

/-- Claim C6: for a daily usage count N read from the ledger, check_daily_limit
reports daily_used = N, remaining = max 0 (limit - N), has_quota exactly when
N < limit, the limit echoed unchanged, and reset_at the start of the next UTC day;
in particular limit = N exhausts the quota and limit = N + 1 leaves exactly one. -/
theorem check_daily_limit_spec (events : List UsageEvent)
    (uid etype env : String) (now : UtcTime) (gid : Option String)
    (N : Nat) (daily_limit : Int) (hlim : 0 ≤ daily_limit)
    (hN : get_daily_usage_count (Except.ok events) uid etype env now gid = N) :
    (check_daily_limit (Except.ok events) uid etype daily_limit gid env now).daily_used = N
    ∧ (check_daily_limit (Except.ok events) uid etype daily_limit gid env now).remaining
        = max 0 (daily_limit - N)
    ∧ ((check_daily_limit (Except.ok events) uid etype daily_limit gid env now).has_quota
        = true ↔ (N : Int) < daily_limit)
    ∧ (check_daily_limit (Except.ok events) uid etype daily_limit gid env now).daily_limit
        = daily_limit
    ∧ (check_daily_limit (Except.ok events) uid etype daily_limit gid env now).reset_at
        = ⟨now.day + 1, 0⟩
    ∧ (check_daily_limit (Except.ok events) uid etype (N : Int) gid env now).has_quota
        = false
    ∧ (check_daily_limit (Except.ok events) uid etype (N : Int) gid env now).remaining = 0
    ∧ (check_daily_limit (Except.ok events) uid etype ((N : Int) + 1) gid env now).has_quota
        = true
    ∧ (check_daily_limit (Except.ok events) uid etype ((N : Int) + 1) gid env now).remaining
        = 1 := by
  refine ⟨?_, ?_, ?_, rfl, rfl, ?_, ?_, ?_, ?_⟩
  · rw [cdl_daily_used, hN]
  · rw [cdl_remaining, hN]
  · rw [cdl_has_quota, hN]
    simp only [decide_eq_true_eq]
    omega
  · rw [cdl_has_quota, hN]
    simp only [decide_eq_false_iff_not]
    omega
  · rw [cdl_remaining, hN]
    omega
  · rw [cdl_has_quota, hN]
    simp only [decide_eq_true_eq]
    omega
  · rw [cdl_remaining, hN]
    omega

/-- Claim C6, witness: one logged chat question on day 100; a limit of 3 leaves
quota, a limit of 1 is exhausted, a limit of 2 leaves one. -/
theorem check_daily_limit_spec_witness :
    (check_daily_limit (Except.ok [sampleEvent]) "u1" "chat_question" 3 none
        "production" ⟨100, 500⟩).daily_used = 1
    ∧ (check_daily_limit (Except.ok [sampleEvent]) "u1" "chat_question" 3 none
        "production" ⟨100, 500⟩).remaining = max 0 (3 - (1 : Nat))
    ∧ ((check_daily_limit (Except.ok [sampleEvent]) "u1" "chat_question" 3 none
        "production" ⟨100, 500⟩).has_quota = true ↔ ((1 : Nat) : Int) < 3)
    ∧ (check_daily_limit (Except.ok [sampleEvent]) "u1" "chat_question" 3 none
        "production" ⟨100, 500⟩).daily_limit = 3
    ∧ (check_daily_limit (Except.ok [sampleEvent]) "u1" "chat_question" 3 none
        "production" ⟨100, 500⟩).reset_at = ⟨101, 0⟩
    ∧ (check_daily_limit (Except.ok [sampleEvent]) "u1" "chat_question" ((1 : Nat) : Int)
        none "production" ⟨100, 500⟩).has_quota = false
    ∧ (check_daily_limit (Except.ok [sampleEvent]) "u1" "chat_question" ((1 : Nat) : Int)
        none "production" ⟨100, 500⟩).remaining = 0
    ∧ (check_daily_limit (Except.ok [sampleEvent]) "u1" "chat_question" (((1 : Nat) : Int) + 1)
        none "production" ⟨100, 500⟩).has_quota = true
    ∧ (check_daily_limit (Except.ok [sampleEvent]) "u1" "chat_question" (((1 : Nat) : Int) + 1)
        none "production" ⟨100, 500⟩).remaining = 1 :=
  check_daily_limit_spec [sampleEvent] "u1" "chat_question" "production" ⟨100, 500⟩ none
    1 3 (by decide) (by decide)

/-- Claim C9: quota enforcement fails open — when the ledger read raises, the daily
count is reported as 0, and a limit of at least 1 yields has_quota true with the
full limit remaining. -/
theorem quota_fails_open (msg uid etype env : String) (now : UtcTime)
    (gid : Option String) (daily_limit : Int) (hlim : 1 ≤ daily_limit) :
    get_daily_usage_count (Except.error msg) uid etype env now gid = 0
    ∧ (check_daily_limit (Except.error msg) uid etype daily_limit gid env now).daily_used
        = 0
    ∧ (check_daily_limit (Except.error msg) uid etype daily_limit gid env now).remaining
        = daily_limit
    ∧ (check_daily_limit (Except.error msg) uid etype daily_limit gid env now).has_quota
        = true := by
  refine ⟨rfl, rfl, ?_, ?_⟩
  · rw [cdl_remaining]
    show max 0 (daily_limit - (0 : Nat)) = daily_limit
    omega
  · rw [cdl_has_quota]
    show decide ((0 : Int) < max 0 (daily_limit - (0 : Nat))) = true
    simp only [decide_eq_true_eq]
    omega

/-- Claim C9, witness: an outage during a check with limit 5 reports zero usage and
full quota. -/
theorem quota_fails_open_witness :
    get_daily_usage_count (Except.error "timeout") "u1" "chat_question" "production"
        ⟨100, 500⟩ none = 0
    ∧ (check_daily_limit (Except.error "timeout") "u1" "chat_question" 5 none
        "production" ⟨100, 500⟩).daily_used = 0
    ∧ (check_daily_limit (Except.error "timeout") "u1" "chat_question" 5 none
        "production" ⟨100, 500⟩).remaining = 5
    ∧ (check_daily_limit (Except.error "timeout") "u1" "chat_question" 5 none
        "production" ⟨100, 500⟩).has_quota = true :=
  quota_fails_open "timeout" "u1" "chat_question" "production" ⟨100, 500⟩ none 5
    (by decide)

/-- Claim C4: on a session holding three messages (created_at 1, 2, 3), a call with
limit 2 returns the two OLDEST messages — the query orders ascending and truncates,
so the most recent message m3 is dropped, contradicting the last-limit-messages
contract. -/
theorem get_session_history_returns_oldest_page :
    get_session_history c4Messages "s" 2
      = [⟨"m1", "s", "user", "q1", 1⟩, ⟨"m2", "s", "assistant", "a1", 2⟩]
    ∧ (⟨"m3", "s", "user", "q2", 3⟩ : ChatMessage) ∉ get_session_history c4Messages "s" 2
    := by decide

/-- If no document row satisfies the ready-match predicate, the limit-1 query is empty. -/
theorem readyStoreQuery_of_none (docs : List GameDocument) (gid lang : String)
    (h : ∀ d ∈ docs, readyDocMatches gid lang d = false) :
    readyStoreQuery docs gid lang = none := by
  unfold readyStoreQuery
  have hfil : docs.filter (readyDocMatches gid lang) = [] := by
    rw [List.filter_eq_nil]
    intro d hd
    simp [h d hd]
  rw [hfil]
  rfl

/-- If some document row satisfies the ready-match predicate, the limit-1 query
returns the store id of such a row. -/
theorem readyStoreQuery_of_some (docs : List GameDocument) (gid lang : String)
    (h : ∃ d ∈ docs, readyDocMatches gid lang d = true) :
    ∃ d ∈ docs, readyDocMatches gid lang d = true
      ∧ readyStoreQuery docs gid lang = d.vector_store_id := by
  unfold readyStoreQuery
  obtain ⟨d0, hd0, hm0⟩ := h
  have hne : docs.filter (readyDocMatches gid lang) ≠ [] := by
    intro hnil
    have := List.filter_eq_nil.mp hnil d0 hd0
    simp [hm0] at this
  cases hfil : docs.filter (readyDocMatches gid lang) with
  | nil => exact absurd hfil hne
  | cons dh dt =>
    have hmem : dh ∈ docs.filter (readyDocMatches gid lang) := by
      rw [hfil]; exact List.mem_cons_self dh dt
    have hprops := List.mem_filter.mp hmem
    exact ⟨dh, hprops.1, hprops.2, rfl⟩

/-- Claim C7: the knowledge locator returns the store id of a ready document with a
store reference for the requested game and language when one exists; when none
exists and the language is not the fallback "en", it returns the store id of a
ready English document when one exists; and when no ready referenced document
exists for the requested language nor for "en", it returns none. -/
theorem getVectorStoreId_spec (docs : List GameDocument) (gid lang : String) :
    ((∃ d ∈ docs, readyDocMatches gid lang d = true) →
      ∃ d ∈ docs, readyDocMatches gid lang d = true
        ∧ getVectorStoreId docs gid lang = d.vector_store_id)
    ∧ ((∀ d ∈ docs, readyDocMatches gid lang d = false) → lang ≠ "en" →
        (∃ d ∈ docs, readyDocMatches gid "en" d = true) →
      ∃ d ∈ docs, readyDocMatches gid "en" d = true
        ∧ getVectorStoreId docs gid lang = d.vector_store_id)
    ∧ ((∀ d ∈ docs, readyDocMatches gid lang d = false) →
        (∀ d ∈ docs, readyDocMatches gid "en" d = false) →
      getVectorStoreId docs gid lang = none) := by
  refine ⟨?_, ?_, ?_⟩
  · intro h
    obtain ⟨d, hd, hm, hq⟩ := readyStoreQuery_of_some docs gid lang h
    refine ⟨d, hd, hm, ?_⟩
    have hsome : d.vector_store_id.isSome = true := by
      unfold readyDocMatches at hm
      simp only [Bool.and_eq_true] at hm
      exact hm.2
    unfold getVectorStoreId
    rw [hq]
    cases hv : d.vector_store_id with
    | none => rw [hv] at hsome; simp at hsome
    | some v => rfl
  · intro hnone hlang hen
    have hq1 := readyStoreQuery_of_none docs gid lang hnone
    obtain ⟨d, hd, hm, hq2⟩ := readyStoreQuery_of_some docs gid "en" hen
    refine ⟨d, hd, hm, ?_⟩
    unfold getVectorStoreId
    rw [hq1, hq2]
    have hb : (lang != "en") = true := by
      simp only [bne_iff_ne, ne_eq]
      exact hlang
    rw [hb]
    simp
  · intro hn1 hn2
    have hq1 := readyStoreQuery_of_none docs gid lang hn1
    have hq2 := readyStoreQuery_of_none docs gid "en" hn2
    unfold getVectorStoreId
    rw [hq1]
    cases hb : (lang != "en") with
    | false => rfl
    | true => rw [hq2]; rfl

/-- Claim C7, witness: game g1 has documents only in English; a Spanish request
falls back to the English store id, and a game with zero ready documents yields
none. -/
theorem getVectorStoreId_spec_witness :
    (∃ d ∈ c7Docs, readyDocMatches "g1" "en" d = true
      ∧ getVectorStoreId c7Docs "g1" "es" = d.vector_store_id)
    ∧ getVectorStoreId c7Docs "g2" "es" = none := by
  constructor
  · exact (getVectorStoreId_spec c7Docs "g1" "es").2.1 (by decide) (by decide) (by decide)
  · exact (getVectorStoreId_spec c7Docs "g2" "es").2.2 (by decide) (by decide)

/-- Claim C1: query_gemini raises exactly when both grounded stages failed; when
exactly one stage failed, it returns the surviving stage record — stripped answer,
its citations, its token counters — with the failing stage error string under the
corresponding key of model_info.errors, and the result does not depend on the
synthesis outcome (no synthesis call is made). -/
theorem query_gemini_both_fail_policy (model_name : String)
    (fsOutcome gsOutcome : Except String StageResult)
    (synth : Except String SynthResult) :
    ((∃ e, query_gemini model_name fsOutcome gsOutcome synth = Except.error e) ↔
      ((∃ e, fsOutcome = Except.error e) ∧ (∃ e, gsOutcome = Except.error e)))
    ∧ (∀ fe gs, fsOutcome = Except.error fe → gsOutcome = Except.ok gs →
        ∃ r, query_gemini model_name fsOutcome gsOutcome synth = Except.ok r
          ∧ r.answer = stripOrSentinel gs.text
          ∧ r.citations = gs.citations
          ∧ r.model_info.total_tokens = gs.usage.bind (fun u => u.total_token_count)
          ∧ r.model_info.prompt_tokens = gs.usage.bind (fun u => u.prompt_token_count)
          ∧ r.model_info.completion_tokens
              = gs.usage.bind (fun u => u.candidates_token_count)
          ∧ r.model_info.errors = [("file_search", fe)]
          ∧ ∀ synth2, query_gemini model_name fsOutcome gsOutcome synth2
              = query_gemini model_name fsOutcome gsOutcome synth)
    ∧ (∀ ge fs, gsOutcome = Except.error ge → fsOutcome = Except.ok fs →
        ∃ r, query_gemini model_name fsOutcome gsOutcome synth = Except.ok r
          ∧ r.answer = stripOrSentinel fs.text
          ∧ r.citations = fs.citations
          ∧ r.model_info.total_tokens = fs.usage.bind (fun u => u.total_token_count)
          ∧ r.model_info.prompt_tokens = fs.usage.bind (fun u => u.prompt_token_count)
          ∧ r.model_info.completion_tokens
              = fs.usage.bind (fun u => u.candidates_token_count)
          ∧ r.model_info.errors = [("google_search", ge)]
          ∧ ∀ synth2, query_gemini model_name fsOutcome gsOutcome synth2
              = query_gemini model_name fsOutcome gsOutcome synth) := by
  refine ⟨?_, ?_, ?_⟩
  · cases fsOutcome <;> cases gsOutcome <;> simp [query_gemini]
  · intro fe gs hfs hgs
    subst hfs; subst hgs
    exact ⟨_, rfl, rfl, rfl, rfl, rfl, rfl, rfl, fun synth2 => rfl⟩
  · intro ge fs hgs hfs
    subst hfs; subst hgs
    exact ⟨_, rfl, rfl, rfl, rfl, rfl, rfl, rfl, fun synth2 => rfl⟩

/-- Claim C1, witness: with the document stage failing and a web stage answering
Paris, the call returns the web answer with a file_search error entry. -/
theorem query_gemini_both_fail_policy_witness :
    ∃ r, query_gemini "m" (Except.error "boom") (Except.ok gsParis)
        (Except.error "unused") = Except.ok r
      ∧ r.answer = stripOrSentinel gsParis.text
      ∧ r.citations = gsParis.citations
      ∧ r.model_info.total_tokens = gsParis.usage.bind (fun u => u.total_token_count)
      ∧ r.model_info.prompt_tokens = gsParis.usage.bind (fun u => u.prompt_token_count)
      ∧ r.model_info.completion_tokens
          = gsParis.usage.bind (fun u => u.candidates_token_count)
      ∧ r.model_info.errors = [("file_search", "boom")]
      ∧ ∀ synth2, query_gemini "m" (Except.error "boom") (Except.ok gsParis) synth2
          = query_gemini "m" (Except.error "boom") (Except.ok gsParis)
              (Except.error "unused") :=
  (query_gemini_both_fail_policy "m" (Except.error "boom") (Except.ok gsParis)
    (Except.error "unused")).2.1 "boom" gsParis rfl rfl

/-- Claim C2: whenever the produced answer text strips to empty — the survivor text
in a one-stage-failure outcome, or the synthesized/fallback text when both stages
ran — the answer field is exactly the sentinel string. -/
theorem query_gemini_sentinel (model_name : String)
    (fsOutcome gsOutcome : Except String StageResult)
    (synth : Except String SynthResult) :
    (∀ fe gs, fsOutcome = Except.error fe → gsOutcome = Except.ok gs →
        pyStrip gs.text = "" →
      ∃ r, query_gemini model_name fsOutcome gsOutcome synth = Except.ok r
        ∧ r.answer = "I dont have information about your request")
    ∧ (∀ ge fs, gsOutcome = Except.error ge → fsOutcome = Except.ok fs →
        pyStrip fs.text = "" →
      ∃ r, query_gemini model_name fsOutcome gsOutcome synth = Except.ok r
        ∧ r.answer = "I dont have information about your request")
    ∧ (∀ fs gs, fsOutcome = Except.ok fs → gsOutcome = Except.ok gs →
        pyStrip (finalAnswerText fs gs synth) = "" →
      ∃ r, query_gemini model_name fsOutcome gsOutcome synth = Except.ok r
        ∧ r.answer = "I dont have information about your request") := by
  refine ⟨?_, ?_, ?_⟩
  · intro fe gs hfs hgs htrim
    subst hfs; subst hgs
    refine ⟨_, rfl, ?_⟩
    show stripOrSentinel gs.text = _
    unfold stripOrSentinel
    rw [htrim]
    rfl
  · intro ge fs hgs hfs htrim
    subst hfs; subst hgs
    refine ⟨_, rfl, ?_⟩
    show stripOrSentinel fs.text = _
    unfold stripOrSentinel
    rw [htrim]
    rfl
  · intro fs gs hfs hgs htrim
    subst hfs; subst hgs
    refine ⟨_, rfl, ?_⟩
    show stripOrSentinel (finalAnswerText fs gs synth) = _
    unfold stripOrSentinel
    rw [htrim]
    rfl

/-- Claim C2, witness: the document stage fails and the web stage returns only
whitespace, so the answer is the verbatim sentinel. -/
theorem query_gemini_sentinel_witness :
    ∃ r, query_gemini "m" (Except.error "boom")
        (Except.ok ⟨"  ", [], none⟩) (Except.error "unused") = Except.ok r
      ∧ r.answer = "I dont have information about your request" :=
  (query_gemini_sentinel "m" (Except.error "boom") (Except.ok ⟨"  ", [], none⟩)
    (Except.error "unused")).1 "boom" ⟨"  ", [], none⟩ rfl rfl (by decide)

/-- A row matching the role-filtered flag query also matches the same query with
the role filter dropped. -/
theorem flagRowMatches_drop_role (env fk : String) (st sid role : Option String)
    (f : FeatureFlag) (h : flagRowMatches env fk st sid role f = true) :
    flagRowMatches env fk st sid none f = true := by
  unfold flagRowMatches at h ⊢
  simp only [Bool.and_eq_true] at h ⊢
  exact ⟨h.1, by simp [optTruthy]⟩

/-- A flag returned by the role-filtered query is also returned by the
role-agnostic query at the same scope. -/
theorem get_feature_flags_drop_role (store : List FeatureFlag) (env fk : String)
    (st sid role : Option String) (f : FeatureFlag)
    (h : f ∈ get_feature_flags store env fk st sid role) :
    f ∈ get_feature_flags store env fk st sid none := by
  unfold get_feature_flags at h ⊢
  have h2 := List.mem_filter.mp h
  exact List.mem_filter.mpr ⟨h2.1, flagRowMatches_drop_role env fk st sid role f h2.2⟩

/-- Claim C3, counterexample: for role admin the flag store is never consulted, so
a disabled user-scoped flag matching the user-scoped candidate does NOT override
the admin bypass — access is granted, contradicting the claim quantified over
every role. -/
theorem check_feature_access_admin_bypasses_disabled_user_flag :
    (∃ f ∈ c3Store, flagRowMatches "production" "chat" (some "user") (some "u1") none f
        = true ∧ f.enabled = false)
    ∧ (∃ f ∈ c3Store, flagRowMatches "production" "chat" (some "global") none none f
        = true ∧ f.enabled = true)
    ∧ (check_feature_access c3Store "production" false "u1" "admin" "chat" "game"
        (some "g1")).has_access = true := by decide

/-- Claim C3 (amended): for a user whose role triggers no bypass, whenever every
flag matching a user-scoped candidate for that user is disabled and at least one
such flag exists, check_feature_access denies access — regardless of any enabled
game-scoped or global flag below. -/
theorem check_feature_access_disabled_user_scope_denies
    (store : List FeatureFlag) (env : String) (is_development : Bool)
    (user_id user_role feature_key scope_type : String) (scope_id : Option String)
    (hBypass : ((user_role == "admin" || user_role == "developer") && is_development)
        = false)
    (hAdmin : (user_role == "admin") = false)
    (hDisabled : ∀ f ∈ get_feature_flags store env feature_key (some "user")
        (some user_id) none, f.enabled = false)
    (hExists : get_feature_flags store env feature_key (some "user") (some user_id) none
        ≠ []) :
    (check_feature_access store env is_development user_id user_role feature_key
      scope_type scope_id).has_access = false := by
  unfold check_feature_access
  rw [hBypass, hAdmin]
  simp only [Bool.false_eq_true, if_false]
  cases h1 : get_feature_flags store env feature_key (some "user") (some user_id)
      (some user_role) with
  | cons f fs =>
    have hmem : f ∈ get_feature_flags store env feature_key (some "user") (some user_id)
        (some user_role) := by
      rw [h1]; exact List.mem_cons_self f fs
    have hdis : f.enabled = false :=
      hDisabled f (get_feature_flags_drop_role store env feature_key (some "user")
        (some user_id) (some user_role) f hmem)
    simp [candidateList, evalCandidates, h1, hdis]
  | nil =>
    cases h2 : get_feature_flags store env feature_key (some "user") (some user_id)
        none with
    | nil => exact absurd h2 hExists
    | cons g gs =>
      have hdis : g.enabled = false := hDisabled g (by rw [h2]; exact List.mem_cons_self g gs)
      simp [candidateList, evalCandidates, h1, h2, hdis]

/-- Claim C3 (amended), witness: a basic-role user with a disabled role-agnostic
user-scoped flag is denied even though an enabled global flag exists. -/
theorem check_feature_access_disabled_user_scope_denies_witness :
    (check_feature_access c3Store "production" false "u1" "basic" "chat" "game"
      (some "g1")).has_access = false :=
  check_feature_access_disabled_user_scope_denies c3Store "production" false "u1"
    "basic" "chat" "game" (some "g1") (by decide) (by decide) (by decide) (by decide)

/-- Claim C10: a role-agnostic candidate lookup applies no role filter (the query
predicate ignores the role column), the first candidate that returns flags decides
the outcome from its first flag, and concretely a flag created for role premium
decides (denies) access for a caller with role basic at the role-agnostic tier. -/
theorem role_agnostic_candidate_behaviour :
    (∀ (env fk : String) (st sid : Option String) (f : FeatureFlag) (r : Option String),
      flagRowMatches env fk st sid none { f with role := r }
        = flagRowMatches env fk st sid none f)
    ∧ (∀ (store : List FeatureFlag) (env fk : String)
        (c : String × Option String × Option String)
        (rest : List (String × Option String × Option String))
        (flag : FeatureFlag) (flags : List FeatureFlag),
      get_feature_flags store env fk (some c.1) c.2.1 c.2.2 = flag :: flags →
      evalCandidates store env fk (c :: rest)
        = some (if flag.enabled then
            ⟨true, fk, flagReason "Enabled" c.1 c.2.2, flag.metadata⟩
          else ⟨false, fk, flagReason "Disabled" c.1 c.2.2, flag.metadata⟩))
    ∧ (check_feature_access c10Store "production" false "u1" "basic" "chat" "game"
        (some "g1")).has_access = false := by
  refine ⟨?_, ?_, ?_⟩
  · intro env fk st sid f r
    rfl
  · intro store env fk c rest flag flags h
    obtain ⟨a, b, r⟩ := c
    unfold evalCandidates
    rw [h]
    cases hfe : flag.enabled <;> simp [hfe]
  · decide

/-- Claim C10, witness: with the store holding only the disabled premium-role flag,
the role-agnostic user candidate returns it and it decides the outcome. -/
theorem role_agnostic_candidate_behaviour_witness :
    evalCandidates c10Store "production" "chat" [("user", some "u1", none)]
      = some (if c10Flag.enabled then
          ⟨true, "chat", flagReason "Enabled" "user" none, c10Flag.metadata⟩
        else ⟨false, "chat", flagReason "Disabled" "user" none, c10Flag.metadata⟩) :=
  role_agnostic_candidate_behaviour.2.1 c10Store "production" "chat"
    ("user", some "u1", none) [] c10Flag [] (by decide)

/-- Stamping last_activity_at never changes a row id. -/
theorem stampOne_id (sid : String) (now : UtcTime) (s : ChatSession) :
    (stampOne sid now s).id = s.id := by
  unfold stampOne
  cases h : (s.id == sid) <;> simp [h]

/-- The resumption-lookup predicate is blind to last_activity_at, so it commutes
with the stamp of a row. -/
theorem sessionPred_stampOne (sid uid sid2 : String) (now : UtcTime) (s : ChatSession) :
    sessionPred sid uid (stampOne sid2 now s) = sessionPred sid uid s := by
  unfold stampOne
  cases h : (s.id == sid2) <;> simp only [h, if_true, if_false, Bool.false_eq_true] <;> rfl

/-- The resumption lookup after the stamp returns the stamped image of what the
lookup returned before. -/
theorem sessionLookup_stampActivity (sessions : List ChatSession)
    (sid uid sid2 : String) (now : UtcTime) :
    sessionLookup (stampActivity sessions sid2 now) sid uid
      = (sessionLookup sessions sid uid).map (stampOne sid2 now) := by
  induction sessions with
  | nil => rfl
  | cons a l ih =>
    unfold sessionLookup stampActivity at ih ⊢
    simp only [List.map_cons, List.filter_cons, sessionPred_stampOne]
    cases h : sessionPred sid uid a with
    | true => simp
    | false => simpa using ih

/-- A member of the table satisfying the resumption predicate makes the lookup
return some row satisfying the predicate. -/
theorem sessionLookup_of_mem (sessions : List ChatSession) (sid uid : String)
    (s : ChatSession) (hs : s ∈ sessions) (hp : sessionPred sid uid s = true) :
    ∃ s0, sessionLookup sessions sid uid = some s0 ∧ sessionPred sid uid s0 = true := by
  unfold sessionLookup
  have hne : sessions.filter (sessionPred sid uid) ≠ [] := by
    intro hnil
    have := List.filter_eq_nil.mp hnil s hs
    simp [hp] at this
  cases hfil : sessions.filter (sessionPred sid uid) with
  | nil => exact absurd hfil hne
  | cons s0 rest =>
    have hmem : s0 ∈ sessions.filter (sessionPred sid uid) := by
      rw [hfil]; exact List.mem_cons_self s0 rest
    exact ⟨s0, rfl, (List.mem_filter.mp hmem).2⟩

/-- A row satisfying the resumption predicate has the looked-up id. -/
theorem sessionPred_id (sid uid : String) (s : ChatSession)
    (hp : sessionPred sid uid s = true) : s.id = sid := by
  unfold sessionPred at hp
  simp only [Bool.and_eq_true, beq_iff_eq] at hp
  exact hp.1.1

/-- Claim C8: when an active session with the given id and owner exists, the call
returns a record with that session id, creates no new session, rewrites the table
so that only last_activity_at of the matching rows changes, leaves every other
field of every row unchanged, and a repeated call returns the same session id. -/
theorem get_or_create_session_resume (sessions : List ChatSession)
    (uid gid lang prov mname sid : String) (now now2 : UtcTime) (newId newId2 : String)
    (hsid : (sid == "") = false)
    (s : ChatSession) (hs : s ∈ sessions) (hp : sessionPred sid uid s = true) :
    (get_or_create_session sessions uid gid lang prov mname (some sid) now newId).1.id
        = sid
    ∧ (get_or_create_session sessions uid gid lang prov mname (some sid) now
        newId).2.length = sessions.length
    ∧ (get_or_create_session sessions uid gid lang prov mname (some sid) now newId).2
        = sessions.map (stampOne sid now)
    ∧ (∀ t ∈ (get_or_create_session sessions uid gid lang prov mname (some sid) now
          newId).2, ∃ t0 ∈ sessions,
        t.id = t0.id ∧ t.user_id = t0.user_id ∧ t.game_id = t0.game_id
          ∧ t.language = t0.language ∧ t.model_provider = t0.model_provider
          ∧ t.model_name = t0.model_name ∧ t.status = t0.status
          ∧ t.total_messages = t0.total_messages
          ∧ t.total_token_estimate = t0.total_token_estimate
          ∧ t.started_at = t0.started_at)
    ∧ (get_or_create_session
        (get_or_create_session sessions uid gid lang prov mname (some sid) now newId).2
        uid gid lang prov mname (some sid) now2 newId2).1.id = sid := by
  obtain ⟨s0, hl, hp0⟩ := sessionLookup_of_mem sessions sid uid s hs hp
  have hred : get_or_create_session sessions uid gid lang prov mname (some sid) now newId
      = (s0, stampActivity sessions sid now) := by
    simp [get_or_create_session, optTruthy, hsid, hl]
  rw [hred]
  refine ⟨sessionPred_id sid uid s0 hp0, ?_, rfl, ?_, ?_⟩
  · unfold stampActivity
    exact List.length_map sessions (stampOne sid now)
  · intro t ht
    obtain ⟨t0, ht0, htt⟩ := List.mem_map.mp ht
    refine ⟨t0, ht0, ?_⟩
    subst htt
    unfold stampOne
    cases h : (t0.id == sid) <;> simp [h]
  · have hl2 : sessionLookup (stampActivity sessions sid now) sid uid
        = some (stampOne sid now s0) := by
      rw [sessionLookup_stampActivity, hl]
      rfl
    have hred2 : get_or_create_session (stampActivity sessions sid now) uid gid lang
        prov mname (some sid) now2 newId2
        = (stampOne sid now s0, stampActivity (stampActivity sessions sid now) sid now2)
        := by
      simp [get_or_create_session, optTruthy, hsid, hl2]
    rw [hred2, stampOne_id]
    exact sessionPred_id sid uid s0 hp0

/-- Claim C8, witness: resuming the concrete active session s1 of user u1 returns
id s1, keeps the table size, only stamps activity, preserves all other fields, and
a second resumption returns s1 again. -/
theorem get_or_create_session_resume_witness :
    (get_or_create_session c8Sessions "u1" "g1" "es" "gemini" "model-x" (some "s1")
        ⟨100, 90⟩ "fresh-id").1.id = "s1"
    ∧ (get_or_create_session c8Sessions "u1" "g1" "es" "gemini" "model-x" (some "s1")
        ⟨100, 90⟩ "fresh-id").2.length = c8Sessions.length
    ∧ (get_or_create_session c8Sessions "u1" "g1" "es" "gemini" "model-x" (some "s1")
        ⟨100, 90⟩ "fresh-id").2 = c8Sessions.map (stampOne "s1" ⟨100, 90⟩)
    ∧ (∀ t ∈ (get_or_create_session c8Sessions "u1" "g1" "es" "gemini" "model-x"
          (some "s1") ⟨100, 90⟩ "fresh-id").2, ∃ t0 ∈ c8Sessions,
        t.id = t0.id ∧ t.user_id = t0.user_id ∧ t.game_id = t0.game_id
          ∧ t.language = t0.language ∧ t.model_provider = t0.model_provider
          ∧ t.model_name = t0.model_name ∧ t.status = t0.status
          ∧ t.total_messages = t0.total_messages
          ∧ t.total_token_estimate = t0.total_token_estimate
          ∧ t.started_at = t0.started_at)
    ∧ (get_or_create_session
        (get_or_create_session c8Sessions "u1" "g1" "es" "gemini" "model-x" (some "s1")
          ⟨100, 90⟩ "fresh-id").2
        "u1" "g1" "es" "gemini" "model-x" (some "s1") ⟨100, 95⟩ "fresh-id2").1.id
        = "s1" :=
  get_or_create_session_resume c8Sessions "u1" "g1" "es" "gemini" "model-x" "s1"
    ⟨100, 90⟩ ⟨100, 95⟩ "fresh-id" "fresh-id2" (by decide) c8Session
    (by decide) (by decide)

end BGA
